import Mathlib

/-!
Shallow embedding of `jnipp.hpp` (JNI++, namespaces `ornew` and `jnipp`).

Modelling conventions:
* `ornew::storage<T>` is a record of the raw buffer contents (`Option T`,
  `none` meaning no object / indeterminate bytes) and the occupancy `flag`.
  Operations that may run `T`'s destructor return the new state paired with
  the number of destructor invocations they performed.
* Constructors of `storage` that leave the `flag` member uninitialized
  (the copy constructor, the value constructor) take the indeterminate
  initial flag value as an explicit parameter `j`.
* `std::unique_ptr<E>` is `Option E` (`none` = null); moving from it leaves
  `none` behind.  Move operations return `(destination, moved-from source)`.
* JNI handles (`jclass`, `jmethodID`) are `Nat`; `NULL` is `none`.  `JNIEnv`
  is an oracle record of the lookup entry points used by the code.
* Compile-time character packs (`jnipp::pack<chars...>`) are `List Char`;
  `pack<...>::str` is the corresponding `String`.
-/

namespace ornew

/-- State of an `ornew::storage<Type>` cell: the buffer contents and the
occupancy flag. -/
structure storage (T : Type) where
  buf : Option T
  flag : Bool
deriving DecidableEq, Repr

/-- `storage(std::nullptr_t)`: the buffer stays uninitialized, `flag{false}`. -/
def storage.ofNull (T : Type) : storage T := ⟨none, false⟩

/-- `destruct()`: if the flag is set, invoke the held object's destructor
(the second component counts destructor invocations) and clear the flag;
otherwise do nothing. -/
def storage.destruct {T : Type} (s : storage T) : storage T × Nat :=
  if s.flag then (⟨none, false⟩, 1) else (s, 0)

/-- `construct(a)`: `destruct()`, then placement-new the value into the
buffer and set `flag = true`. -/
def storage.construct {T : Type} (s : storage T) (a : T) : storage T × Nat :=
  let p := s.destruct
  (⟨some a, true⟩, p.2)

/-- `assign(a)` (also `operator=`): `destruct()`, then copy-assign the value
into the raw buffer.  The flag is whatever `destruct()` left (it is never
set to true here). -/
def storage.assign {T : Type} (s : storage T) (a : T) : storage T × Nat :=
  let p := s.destruct
  ({ p.1 with buf := some a }, p.2)

/-- `storage(self const& a)`: the `flag` member is left uninitialized — its
indeterminate initial value is the parameter `j` — and the body runs
`assign(*a.raw())`.  Reading `*a.raw()` of an empty cell yields the source
buffer's indeterminate contents, so the assignment copies the source buffer
through unchanged. -/
def storage.copyCtor {T : Type} (j : Bool) (a : storage T) : storage T × Nat :=
  let p := storage.destruct (⟨none, j⟩ : storage T)
  ({ p.1 with buf := a.buf }, p.2)

/-- `storage(type const& a)`: `flag` left uninitialized (`j`), body runs
`assign(a)`. -/
def storage.ofValue {T : Type} (j : Bool) (a : T) : storage T × Nat :=
  storage.assign (⟨none, j⟩ : storage T) a

/-- When the source cell is occupied, the copy constructor is exactly
`assign(*a.raw())` on the value held by the source. -/
theorem storage.copyCtor_eq_assign {T : Type} (j : Bool) (a : storage T) (v : T)
    (h : a.buf = some v) :
    storage.copyCtor j a = storage.assign (⟨none, j⟩ : storage T) v := by
  simp [storage.copyCtor, storage.assign, h]

/-- The result of the value constructor does not depend on the indeterminate
initial flag: the cell ends with the value in the buffer and `flag = false`. -/
theorem storage.ofValue_fst {T : Type} (j : Bool) (a : T) :
    (storage.ofValue j a).1 = ⟨some a, false⟩ := by
  cases j <;> rfl

/-- `ornew::unexpected<Error>`: owns its error through a `unique_ptr`. -/
structure unexpected (E : Type) where
  e : Option E
deriving Repr

/-- `unexpected(E&&... e) : e{ new Error{...} }` — the constructor always
allocates an owned error. -/
def unexpected.make {E : Type} (err : E) : unexpected E := ⟨some err⟩

/-- `move_error()`: `std::move(e)` — returns the owned pointer and leaves the
builder's pointer null. -/
def unexpected.move_error {E : Type} (u : unexpected E) : Option E × unexpected E :=
  (u.e, ⟨none⟩)

/-- `ornew::expected<Result, Error>`: a possibly-null owned error `e` plus a
`storage<Result>` cell `r`. -/
structure expected (R E : Type) where
  e : Option E
  r : storage R

/-- `expected()` — the default state: null error, `r{ nullptr }`. -/
def expected.default (R E : Type) : expected R E := ⟨none, storage.ofNull R⟩

/-- `expected(result a) : r{ a }` — the success-path constructor; the storage
value constructor's result is independent of its uninitialized flag
(`storage.ofValue_fst`), so it is taken at `j = false`. -/
def expected.ofResult {R E : Type} (a : R) : expected R E :=
  ⟨none, (storage.ofValue false a).1⟩

/-- `expected(unexpected<error>&& e) : r{ nullptr } { this->e = std::move(e.move_error()); }`
Returns the constructed result together with the moved-from builder. -/
def expected.ofUnexpected {R E : Type} (u : unexpected E) : expected R E × unexpected E :=
  let p := u.move_error
  (⟨p.1, storage.ofNull R⟩, p.2)

/-- The compiler-generated move of `expected`: the `unique_ptr` member is
moved (the source pointer becomes null, the destination takes it); the
`storage` member has no move constructor, so it is copied via
`storage(self const&)` with indeterminate flag `j`, and the source's storage
is left unchanged.  Returns `(destination, moved-from source)`. -/
def expected.moveCtor {R E : Type} (j : Bool) (x : expected R E) :
    expected R E × expected R E :=
  (⟨x.e, (storage.copyCtor j x.r).1⟩, ⟨none, x.r⟩)

/-- `ornew::raise<Error>(args...)`: builds an `unexpected<Error>`. -/
def raise {E : Type} (err : E) : unexpected E := unexpected.make err

end ornew

namespace jnipp

/-- Native C++ scalar types appearing as arguments of `jnipp::resolver`. -/
inductive ctype
  | void | bool | char | uchar | int16 | int32 | int64 | float | double
deriving DecidableEq, Repr

/-- JNI-side primitive types (plus `void`), the possible results of the
resolver. -/
inductive jni_type
  | jvoid | jboolean | jbyte | jchar | jshort | jint | jlong | jfloat | jdouble
deriving DecidableEq, Repr

/-- The `jnipp::resolver<Type>` specializations.  The primary template has no
`type` member, so a native type with no specialization does not resolve
(`none`); in C++, instantiating it is a compile error.  Note the source has
no specialization for `float` or `double`. -/
def resolver : ctype → Option jni_type
  | .void => some .jvoid
  | .bool => some .jboolean
  | .char => some .jbyte
  | .uchar => some .jchar
  | .int16 => some .jshort
  | .int32 => some .jint
  | .int64 => some .jlong
  | .float => none
  | .double => none

/-- `resolver<Return(Args...)>`: `resolver<Return>::type(resolver<Args>::type...)`
— each argument and the return type resolved independently by the scalar
table; fails if any component fails to resolve. -/
def resolver_sig (args : List ctype) (ret : ctype) : Option (jni_type × List jni_type) :=
  match resolver ret, args.mapM resolver with
  | some r, some l => some (r, l)
  | _, _ => none

/-- Types in the domain of `jnipp::mangler`: the eight JNI primitive value
types, `defined<L>` carrying a compile-time qualified name, and pointers
(mangled as arrays).  There is no `mangler<void>` specialization in the
source. -/
inductive jtype
  | jboolean | jbyte | jchar | jshort | jint | jlong | jfloat | jdouble
  | defined (L : List Char)
  | pointer (t : jtype)
deriving DecidableEq, Repr

/-- `jnipp::pack_join<L, R>`: concatenation of two character packs. -/
def pack_join (l r : List Char) : List Char := l ++ r

/-- `jnipp::pack_join_all<L, R, Next, Rest...>`: left fold of `pack_join`
over at least two packs, exactly as `detail::_pack_join_all` recurses. -/
def pack_join_all : List Char → List Char → List (List Char) → List Char
  | a, b, [] => pack_join a b
  | a, b, c :: rest => pack_join_all (pack_join a b) c rest

/-- The `jnipp::mangler` specializations for value types: each JNI primitive
maps to its single-letter pack — note the source writes `pack<'L'>` for
`jlong`; `defined<L>` maps to `pack_join_all<pack<'L'>, L::name, pack<';'>>`;
a pointer maps to `pack_join<pack<'['>, mangler<pointee>::name>`. -/
def mangler : jtype → List Char
  | .jboolean => ['Z']
  | .jbyte => ['B']
  | .jchar => ['C']
  | .jshort => ['S']
  | .jint => ['I']
  | .jlong => ['L']
  | .jfloat => ['F']
  | .jdouble => ['D']
  | .defined L => pack_join_all ['L'] L [[';']]
  | .pointer t => pack_join ['['] (mangler t)

/-- `mangler<Return(Args...)>::name`:
`pack_join_all<pack<'('>, mangler<Args>::name..., pack<')'>, mangler<Return>::name>`.
The variadic expansion always passes at least the two packs `(` and `)`. -/
def mangler_sig (args : List jtype) (ret : jtype) : List Char :=
  match args.map mangler with
  | [] => pack_join_all ['('] [')'] [mangler ret]
  | x :: xs => pack_join_all ['('] x (xs ++ [[')'], mangler ret])

/-- `pack<values...>::str`: the pack as a C string. -/
def pack_str (p : List Char) : String := String.mk p

/-- `jnipp::jstring_define::name`: the pack spelling `java/lang/String`. -/
def jstring_define : List Char :=
  ['j', 'a', 'v', 'a', '/', 'l', 'a', 'n', 'g', '/', 'S', 't', 'r', 'i', 'n', 'g']

/-- `jnipp::jstring = defined<jstring_define>`. -/
def jstring : jtype := .defined jstring_define

/-- Oracle for the `JNIEnv` entry points the code calls: class handles and
method identifiers are `Nat`, `NULL` is `none`.  `GetMethodID` is keyed by
(class, name, descriptor string). -/
structure JNIEnv where
  FindClass : String → Option Nat
  GetMethodID : Nat → String → String → Option Nat

/-- `jnipp::jni_error`: a `runtime_error` (message string) that also stores
the originating `JNIEnv*`. -/
structure jni_error where
  env : JNIEnv
  message : String

/-- `basic_error::get_message()`. -/
def jni_error.get_message (e : jni_error) : String := e.message

/-- `jnipp::environment`: wraps the `JNIEnv*`. -/
structure environment where
  env : JNIEnv

/-- `environment::attach()`: returns the wrapped `JNIEnv*`. -/
def environment.attach (self : environment) : JNIEnv := self.env

/-- `jnipp::clas`: an environment back-reference plus the `jclass` handle. -/
structure clas where
  env : environment
  c : Nat

/-- `jnipp::method_id`: environment back-reference, class handle, method
identifier (the `method<R>` trampolines all carry exactly this state). -/
structure method_id where
  env : environment
  cls : Nat
  id : Nat

/-- `jni_raise(env, args...)`: `ornew::raise<jni_error>(env, args...)`. -/
def jni_raise (g : JNIEnv) (msg : String) : ornew.unexpected jni_error :=
  ornew.raise ⟨g, msg⟩

/-- `environment::find_class(name)`: `FindClass(name)`; on `NULL`, return
`jni_raise(env, "Not found: " + name + " in env::find_class function.")`
(converted to an `expected` through the `unexpected&&` constructor); on
success return `clas{ this, c }`. -/
def environment.find_class (self : environment) (name : String) :
    ornew.expected clas jni_error :=
  match self.env.FindClass name with
  | none =>
    (ornew.expected.ofUnexpected
      (jni_raise self.attach (("Not found: " ++ name) ++ " in env::find_class function."))).1
  | some c => ornew.expected.ofResult ⟨self, c⟩

/-- `clas::get_method<Signature>(name)` on an already-resolved signature:
`GetMethodID(c, name, mangle<type>::str)`; on `NULL`, return
`jni_raise(env->attach(), "Not found: " + name + " in clas::get_method function.")`;
on success return the method handle `{ env, c, id }`. -/
def clas.get_method (self : clas) (args : List jtype) (ret : jtype) (name : String) :
    ornew.expected method_id jni_error :=
  match (self.env.attach).GetMethodID self.c name (pack_str (mangler_sig args ret)) with
  | none =>
    (ornew.expected.ofUnexpected
      (jni_raise self.env.attach (("Not found: " ++ name) ++ " in clas::get_method function."))).1
  | some i => ornew.expected.ofResult ⟨self.env, self.c, i⟩

/-- Follows the spec's words (§4.4 state taxonomy), for comparison against
what the code produces: the success state is "storage occupied, error null". -/
def spec_success_state {R E : Type} (x : ornew.expected R E) : Prop :=
  x.r.flag = true ∧ x.e = none

end jnipp

open ornew jnipp

/-- The left fold `pack_join_all` flattens to plain concatenation of all the
packs, whatever their number. -/
theorem pack_join_all_flat (a b : List Char) (l : List (List Char)) :
    pack_join_all a b l = a ++ b ++ l.flatten := by
  induction l generalizing a b with
  | nil => simp [pack_join_all, pack_join]
  | cons c rest ih => simp [pack_join_all, pack_join, ih]

/-- Claim C1: the source's primitive descriptor table, evaluated on all eight
JNI primitives.  Seven letters agree with the claim's reserved table, but the
source maps `jlong` to `"L"`, not to the reserved letter `"J"`. -/
theorem C1_primitive_descriptor_eval :
    pack_str (mangler .jboolean) = "Z" ∧ pack_str (mangler .jbyte) = "B" ∧
    pack_str (mangler .jchar) = "C" ∧ pack_str (mangler .jshort) = "S" ∧
    pack_str (mangler .jint) = "I" ∧ pack_str (mangler .jfloat) = "F" ∧
    pack_str (mangler .jdouble) = "D" ∧
    pack_str (mangler .jlong) = "L" ∧ pack_str (mangler .jlong) ≠ "J" := by
  decide

/-- Claim C2: the resolver table, evaluated on every native scalar type.  Six
of the claim's eight mappings hold (plus the unsigned-char quirk), but the
source has no resolver specialization for `float` or `double`, so those two —
and any function signature mentioning them — do not resolve. -/
theorem C2_resolver_eval :
    resolver .bool = some .jboolean ∧ resolver .char = some .jbyte ∧
    resolver .int16 = some .jshort ∧ resolver .int32 = some .jint ∧
    resolver .int64 = some .jlong ∧ resolver .void = some .jvoid ∧
    resolver .uchar = some .jchar ∧
    resolver .float = none ∧ resolver .double = none ∧
    resolver_sig [.float] .void = none ∧
    resolver_sig [.bool, .int32] .void = some (.jvoid, [.jboolean, .jint]) := by
  decide

/-- Claim C3: copy-constructing from an occupied `storage<Nat>` holding `5`
(with indeterminate initial flag modelled as `false`): the copy gets the value
bytes in its buffer but its occupancy flag is `false`, and its teardown
(`destruct`) invokes no destructor — so the copy does not hold the value in
the occupancy sense, and the copied instance is leaked. -/
theorem C3_copy_ctor_eval :
    ((storage.construct (⟨none, false⟩ : storage Nat) 5).1.flag = true) ∧
    (storage.copyCtor false (storage.construct (⟨none, false⟩ : storage Nat) 5).1).1
      = ⟨some 5, false⟩ ∧
    ((storage.copyCtor false
        (storage.construct (⟨none, false⟩ : storage Nat) 5).1).1.destruct).2 = 0 := by
  decide

/-- Claim C4: the synthesized function descriptor is `(` followed by the
argument descriptors in order, then `)`, then the return descriptor; with zero
arguments it is `()` followed by the return descriptor. -/
theorem C4_signature_descriptor (args : List jtype) (ret : jtype) :
    mangler_sig args ret
      = ['('] ++ (args.map mangler).flatten ++ [')'] ++ mangler ret ∧
    mangler_sig [] ret = ['(', ')'] ++ mangler ret := by
  constructor
  · unfold mangler_sig
    cases h : args.map mangler with
    | nil => simp [pack_join_all_flat]
    | cons x xs => simp [pack_join_all_flat]
  · simp [mangler_sig, pack_join_all_flat]

/-- Claim C9: a declared class type tagged with qualified name `L` mangles to
`'L' + L + ';'`, and in particular `jstring` mangles to `"Ljava/lang/String;"`. -/
theorem C9_defined_class_descriptor (L : List Char) :
    mangler (.defined L) = ['L'] ++ L ++ [';'] ∧
    pack_str (mangler jstring) = "Ljava/lang/String;" := by
  constructor
  · simp [mangler, pack_join_all_flat]
  · decide

/-- Claim C10: `pack_join` is associative, `pack_join_all` flattens to the
concatenation of all packs (so every bracketing of a multi-pack join yields
the identical sequence), and the left fold equals the corresponding right
bracketing. -/
theorem C10_pack_join_assoc (a b c : List Char) (l : List (List Char)) :
    pack_join (pack_join a b) c = pack_join a (pack_join b c) ∧
    pack_join_all a b l = a ++ b ++ l.flatten ∧
    pack_join_all a b (c :: l) = pack_join a (pack_join_all b c l) := by
  refine ⟨by simp [pack_join], pack_join_all_flat a b l, ?_⟩
  simp [pack_join, pack_join_all_flat]

/-- Claim C7: `destruct()` on an unoccupied cell is a no-op (state unchanged,
no destructor call); on an occupied cell it invokes the destructor exactly
once and marks the cell unoccupied; and after `construct` the first
`destruct` destroys the constructed instance exactly once while the following
one (the cell's own teardown) invokes no destructor. -/
theorem C7_destruct_once {T : Type} (s : storage T) (a : T) :
    (s.flag = false → s.destruct = (s, 0)) ∧
    (s.flag = true → s.destruct = (⟨none, false⟩, 1)) ∧
    ((s.construct a).1.destruct = (⟨none, false⟩, 1)) ∧
    (((s.construct a).1.destruct.1.destruct).2 = 0) := by
  refine ⟨fun h => ?_, fun h => ?_, ?_, ?_⟩ <;>
    simp [storage.destruct, storage.construct, *]

/-- Witness for C7 at a concrete occupied cell. -/
theorem C7_destruct_once_witness :
    storage.destruct (⟨some 5, true⟩ : storage Nat) = (⟨none, false⟩, 1) :=
  (C7_destruct_once (⟨some 5, true⟩ : storage Nat) 0).2.1 rfl

/-- Claim C8: `assign` (and so `operator=` and the copy constructor) leaves
the occupancy flag `false`, a `destruct` after `assign` invokes no destructor
for the assigned value, `destruct` itself leaves the flag `false`, and only
`construct` produces an occupied cell. -/
theorem C8_assign_unoccupied {T : Type} (s : storage T) (a : T) (j : Bool) :
    ((s.assign a).1.flag = false) ∧
    (((s.assign a).1.destruct).2 = 0) ∧
    ((s.destruct).1.flag = false) ∧
    ((storage.copyCtor j s).1.flag = false) ∧
    ((s.construct a).1.flag = true) := by
  refine ⟨?_, ?_, ?_, ?_, ?_⟩ <;>
    cases hs : s.flag <;> cases j <;>
      simp [storage.assign, storage.destruct, storage.construct, storage.copyCtor, hs]

/-- Claim C5: converting an `unexpected` builder into an `expected` always
produces the failure state — the error moved in and owned, the value storage
empty — never a success or partial state, and the builder relinquishes its
pointer; moving that failure transfers sole ownership of the error to the
destination and leaves the source in the default/empty state. -/
theorem C5_failure_ownership {R E : Type} (err : E) (j : Bool) :
    ((@expected.ofUnexpected R E (unexpected.make err)).1.e = some err) ∧
    ((@expected.ofUnexpected R E (unexpected.make err)).1.r.flag = false) ∧
    ((@expected.ofUnexpected R E (unexpected.make err)).1.r.buf = none) ∧
    ((@expected.ofUnexpected R E (unexpected.make err)).2.e = none) ∧
    ((expected.moveCtor j (@expected.ofUnexpected R E (unexpected.make err)).1).1.e
      = some err) ∧
    ((expected.moveCtor j (@expected.ofUnexpected R E (unexpected.make err)).1).1.r.flag
      = false) ∧
    ((expected.moveCtor j (@expected.ofUnexpected R E (unexpected.make err)).1).2.e
      = none) ∧
    ((expected.moveCtor j (@expected.ofUnexpected R E (unexpected.make err)).1).2.r.flag
      = false) ∧
    ((expected.moveCtor j (@expected.ofUnexpected R E (unexpected.make err)).1).2.r.buf
      = none) := by
  cases j <;>
    simp [expected.ofUnexpected, unexpected.make, unexpected.move_error,
      expected.moveCtor, storage.copyCtor, storage.destruct, storage.ofNull]

/-- Claim C6 (amended): when the runtime lookup returns null, `find_class`
and `get_method` return a failure whose error message contains the looked-up
name; when it returns non-null, they return a result with null error whose
storage buffer holds the wrapped class / method handle — but whose occupancy
flag remains `false`, so the result is not in the spec's occupied success
state. -/
theorem C6_lookup_amended (g : JNIEnv) (name : String) (k : Nat) (cl : clas)
    (ar : List jtype) (rt : jtype) :
    (g.FindClass name = none →
      ∃ err : jni_error, (environment.find_class ⟨g⟩ name).e = some err ∧
        (∃ p q : String, err.get_message = p ++ (name ++ q)) ∧
        (environment.find_class ⟨g⟩ name).r.flag = false ∧
        (environment.find_class ⟨g⟩ name).r.buf = none) ∧
    (g.FindClass name = some k →
      (environment.find_class ⟨g⟩ name).e = none ∧
      (environment.find_class ⟨g⟩ name).r.buf = some ⟨⟨g⟩, k⟩ ∧
      (environment.find_class ⟨g⟩ name).r.flag = false) ∧
    ((cl.env.attach).GetMethodID cl.c name (pack_str (mangler_sig ar rt)) = none →
      ∃ err : jni_error, (cl.get_method ar rt name).e = some err ∧
        (∃ p q : String, err.get_message = p ++ (name ++ q)) ∧
        (cl.get_method ar rt name).r.flag = false ∧
        (cl.get_method ar rt name).r.buf = none) ∧
    ((cl.env.attach).GetMethodID cl.c name (pack_str (mangler_sig ar rt)) = some k →
      (cl.get_method ar rt name).e = none ∧
      (cl.get_method ar rt name).r.buf = some ⟨cl.env, cl.c, k⟩ ∧
      (cl.get_method ar rt name).r.flag = false) := by
  refine ⟨fun h => ?_, fun h => ?_, fun h => ?_, fun h => ?_⟩
  · refine ⟨⟨(⟨g⟩ : environment).attach,
        ("Not found: " ++ name) ++ " in env::find_class function."⟩,
      ?_, ⟨"Not found: ", " in env::find_class function.", ?_⟩, ?_, ?_⟩ <;>
      simp [environment.find_class, environment.attach, h, expected.ofUnexpected,
        unexpected.move_error, jni_raise, raise, unexpected.make, storage.ofNull,
        jni_error.get_message, String.append_assoc]
  · refine ⟨?_, ?_, ?_⟩ <;>
      simp [environment.find_class, h, expected.ofResult, storage.ofValue,
        storage.assign, storage.destruct]
  · refine ⟨⟨cl.env.attach,
        ("Not found: " ++ name) ++ " in clas::get_method function."⟩,
      ?_, ⟨"Not found: ", " in clas::get_method function.", ?_⟩, ?_, ?_⟩ <;>
      simp [clas.get_method, h, expected.ofUnexpected,
        unexpected.move_error, jni_raise, raise, unexpected.make, storage.ofNull,
        jni_error.get_message, String.append_assoc]
  · refine ⟨?_, ?_, ?_⟩ <;>
      simp [clas.get_method, h, expected.ofResult, storage.ofValue,
        storage.assign, storage.destruct]

/-- Oracle whose class lookup always succeeds with handle 7 and whose method
lookup always succeeds with identifier 3. -/
def gSome : JNIEnv := ⟨fun _ => some 7, fun _ _ _ => some 3⟩

/-- Counterexample to claim C6 as stated: with a lookup that returns non-null
for `java/lang/Object`, the result of `find_class` is not in the spec's
success state (its storage occupancy flag is `false`), even though the class
handle was found and wrapped. -/
theorem C6_lookup_counterexample :
    gSome.FindClass "java/lang/Object" = some 7 ∧
    ¬ spec_success_state (environment.find_class ⟨gSome⟩ "java/lang/Object") := by
  refine ⟨rfl, ?_⟩
  rintro ⟨hflag, -⟩
  have hf : (environment.find_class ⟨gSome⟩ "java/lang/Object").r.flag = false := rfl
  rw [hflag] at hf
  simp at hf

/-- Oracle whose lookups always report nothing found (NULL). -/
def gNone : JNIEnv := ⟨fun _ => none, fun _ _ _ => none⟩

/-- Witness for C6 at the always-failing oracle and the name
`com/example/Missing`. -/
theorem C6_lookup_witness :
    ∃ err : jni_error,
      (environment.find_class ⟨gNone⟩ "com/example/Missing").e = some err ∧
      (∃ p q : String, err.get_message = p ++ ("com/example/Missing" ++ q)) ∧
      (environment.find_class ⟨gNone⟩ "com/example/Missing").r.flag = false ∧
      (environment.find_class ⟨gNone⟩ "com/example/Missing").r.buf = none :=
  (C6_lookup_amended gNone "com/example/Missing" 0 ⟨⟨gNone⟩, 0⟩ [] .jint).1 rfl

